import Mathlib

/-!
# Verification of the aWATTar price-dashboard aggregation core (`jahr5.py`)

Shallow embedding of the computational core of the dashboard:

* timestamps are epoch milliseconds (UTC), as in the JSON input consumed by
  `load_data` (`pd.to_datetime(..., unit="ms")`);
* calendar conversions (`dt.date`, `dt.hour`, `dt.day_name()`, the daily and
  monthly resampling bins) are implemented over the proleptic Gregorian
  calendar, exactly the computations pandas performs on a naive UTC instant;
* floats are modelled as exact rationals, float NaN as `Option.none`;
* `resample("D"/"M") ... .mean()` produces one row per period between the
  first and last occupied bin inclusive, with NaN (`none`) for empty bins —
  pandas fills interior gaps, it does not drop them;
* `resample("M")` uses month-END labels (the last calendar day of the month
  at midnight), pandas' "M" frequency;
* the script-level dataframe mutation in the analysis tab
  (`df["hour"] = ...`, `df["weekday"] = ...`) is modelled by explicit state
  passing over a `DataFrame` value carrying the optional extra columns.
-/

namespace Kosten

/-- Milliseconds per hour. -/
def msPerHour : ℕ := 3600000

/-- Milliseconds per day. -/
def msPerDay : ℕ := 86400000

/-- A calendar date (year, month 1–12, day 1–31), the value of `.dt.date`. -/
structure Date where
  year : ℕ
  month : ℕ
  day : ℕ
deriving DecidableEq, Repr

/-- Calendar order on dates (year, then month, then day), as Boolean `≤`. -/
def dateLeb (a b : Date) : Bool :=
  if a.year = b.year then
    if a.month = b.month then decide (a.day ≤ b.day)
    else decide (a.month < b.month)
  else decide (a.year < b.year)

/-- Gregorian leap-year test. -/
def isLeap (y : ℕ) : Bool :=
  y % 4 == 0 && (y % 100 != 0 || y % 400 == 0)

/-- Number of days in a calendar month. -/
def daysInMonth (y m : ℕ) : ℕ :=
  if m = 2 then (if isLeap y then 29 else 28)
  else if m = 4 ∨ m = 6 ∨ m = 9 ∨ m = 11 then 30
  else 31

/-- Civil date from a count of days since 1970-01-01 (proleptic Gregorian);
the computation pandas performs for `.dt.date` on a naive UTC timestamp. -/
def civilFromDays (z : ℕ) : Date :=
  let zs := z + 719468
  let era := zs / 146097
  let doe := zs % 146097
  let yoe := (doe - doe / 1460 + doe / 36524 - doe / 146096) / 365
  let y := yoe + era * 400
  let doy := doe - (365 * yoe + yoe / 4 - yoe / 100)
  let mp := (5 * doy + 2) / 153
  let d := doy - (153 * mp + 2) / 5 + 1
  let m := if mp < 10 then mp + 3 else mp - 9
  if m ≤ 2 then ⟨y + 1, m, d⟩ else ⟨y, m, d⟩

/-- Days since 1970-01-01 of a civil date (proleptic Gregorian); inverse of
`civilFromDays` on dates at or after the epoch. -/
def daysFromCivil (c : Date) : ℕ :=
  let y := if c.month ≤ 2 then c.year - 1 else c.year
  let era := y / 400
  let yoe := y - era * 400
  let mp := if 2 < c.month then c.month - 3 else c.month + 9
  let doy := (153 * mp + 2) / 5 + c.day - 1
  let doe := yoe * 365 + yoe / 4 - yoe / 100 + doy
  era * 146097 + doe - 719468

/-- One element of the `data` array after `load_data`'s timestamp conversion:
`start_timestamp` / `end_timestamp` in epoch milliseconds, `marketprice`
in €/MWh. -/
structure PriceRecord where
  start_timestamp : ℕ
  end_timestamp : ℕ
  marketprice : ℚ
deriving DecidableEq, Repr

/-- The derived column `df["price_ct_kwh"] = df["marketprice"] / 10`. -/
def price_ct_kwh (r : PriceRecord) : ℚ :=
  r.marketprice / 10

/-- `.dt.date` of a record's `start_timestamp`. -/
def dateOf (r : PriceRecord) : Date :=
  civilFromDays (r.start_timestamp / msPerDay)

/-- `.dt.hour` of a record's `start_timestamp`. -/
def hourOf (r : PriceRecord) : ℕ :=
  r.start_timestamp / msPerHour % 24

/-- Weekday index of a record's `start_timestamp` (0 = Monday … 6 = Sunday);
1970-01-01 was a Thursday. -/
def weekdayIdx (r : PriceRecord) : ℕ :=
  (r.start_timestamp / msPerDay + 3) % 7

/-- The fixed Monday→Sunday enumeration used by the `reindex` call. -/
def dayNames : List String :=
  ["Monday", "Tuesday", "Wednesday", "Thursday", "Friday", "Saturday", "Sunday"]

/-- `.dt.day_name()` of a record's `start_timestamp`. -/
def dayName (r : PriceRecord) : String :=
  dayNames.getD (weekdayIdx r) ""

/-- The date-range filter
`df[(df.start_timestamp.dt.date >= start_date) & (... <= end_date)]`. -/
def filterRange (ds : List PriceRecord) (s e : Date) : List PriceRecord :=
  ds.filter fun r => dateLeb s (dateOf r) && dateLeb (dateOf r) e

/-- Mean of a list of values, `none` on the empty list (pandas `mean()`
returns NaN for an empty collection). -/
def meanOpt : List ℚ → Option ℚ
  | [] => none
  | x :: xs => some ((x :: xs).sum / (x :: xs).length)

/-- Minimum of a list of values, `none` on the empty list (pandas `min()`). -/
def listMin : List ℚ → Option ℚ
  | [] => none
  | x :: xs => some (xs.foldl min x)

/-- Maximum of a list of values, `none` on the empty list (pandas `max()`). -/
def listMax : List ℚ → Option ℚ
  | [] => none
  | x :: xs => some (xs.foldl max x)

/-- One row of the aggregated output: resample bin label and mean price
(`none` models a NaN cell). -/
structure AggEntry where
  bucket_start : ℕ
  val : Option ℚ
deriving DecidableEq, Repr

/-- Smallest bin key among the records (left edge of the resample range). -/
def keyLo (key : PriceRecord → ℕ) : List PriceRecord → ℕ
  | [] => 0
  | r :: rs => (rs.map key).foldl Nat.min (key r)

/-- Largest bin key among the records (right edge of the resample range). -/
def keyHi (key : PriceRecord → ℕ) : List PriceRecord → ℕ
  | [] => 0
  | r :: rs => (rs.map key).foldl Nat.max (key r)

/-- `resample(freq, on="start_timestamp")["price_ct_kwh"].mean().reset_index()`:
one row per bin from the first to the last occupied bin inclusive, labelled by
`bucketTs`, value the mean of the bin's prices (`none` when the bin is empty —
pandas emits a NaN row for interior gaps). Empty input gives empty output. -/
def resampleMean (key : PriceRecord → ℕ) (bucketTs : ℕ → ℕ)
    (ds : List PriceRecord) : List AggEntry :=
  match ds with
  | [] => []
  | r :: rs =>
    let lo := keyLo key (r :: rs)
    let hi := keyHi key (r :: rs)
    (List.range' lo (hi + 1 - lo)).map fun k =>
      { bucket_start := bucketTs k
        val := meanOpt (((r :: rs).filter fun x => key x == k).map price_ct_kwh) }

/-- Daily bin key: days since epoch of `start_timestamp` (`resample("D")`). -/
def dayKey (r : PriceRecord) : ℕ :=
  r.start_timestamp / msPerDay

/-- Daily bin label: midnight of that day. -/
def dayBucketTs (k : ℕ) : ℕ :=
  k * msPerDay

/-- Monthly bin key: months since year 0 of `start_timestamp`'s month. -/
def monthKey (r : PriceRecord) : ℕ :=
  (dateOf r).year * 12 + ((dateOf r).month - 1)

/-- Monthly bin label for `resample("M")`: pandas' month-END frequency labels
each bin with the LAST calendar day of the month at midnight. -/
def monthBucketTs (k : ℕ) : ℕ :=
  daysFromCivil ⟨k / 12, k % 12 + 1, daysInMonth (k / 12) (k % 12 + 1)⟩ * msPerDay

/-- The three values of the `agg_mode` radio button. -/
inductive AggMode where
  | Stuendlich
  | Taeglich
  | Monatlich
deriving DecidableEq, Repr

/-- The filter-and-aggregate pipeline of the script: date-range filter, then
per `agg_mode` either pass-through (`Stündlich`), daily resample (`Täglich`)
or monthly resample (`Monatlich`). -/
def filter_and_aggregate (ds : List PriceRecord) (s e : Date) (mode : AggMode) :
    List AggEntry :=
  let f := filterRange ds s e
  match mode with
  | .Stuendlich => f.map fun r => ⟨r.start_timestamp, some (price_ct_kwh r)⟩
  | .Taeglich => resampleMean dayKey dayBucketTs f
  | .Monatlich => resampleMean monthKey monthBucketTs f

/-- The sidebar statistics block `{avg_price, min_price, max_price}`. -/
structure Summary where
  avg : Option ℚ
  min : Option ℚ
  max : Option ℚ
deriving DecidableEq, Repr

/-- `mean()/min()/max()` over the `price_ct_kwh` column of the (possibly
aggregated) filtered frame; pandas skips NaN cells (`skipna=True`). -/
def summarize (series : List AggEntry) : Summary :=
  let vals := series.filterMap AggEntry.val
  ⟨meanOpt vals, listMin vals, listMax vals⟩

/-- `df.groupby("hour")["price_ct_kwh"].mean().reset_index()`: one row per
hour value present in the data, ascending. -/
def avg_by_hour (ds : List PriceRecord) : List (ℕ × ℚ) :=
  (List.range 24).filterMap fun h =>
    match meanOpt ((ds.filter fun r => hourOf r == h).map price_ct_kwh) with
    | none => none
    | some v => some (h, v)

/-- `df.groupby("weekday")["price_ct_kwh"].mean().reindex([Monday..Sunday])`:
always seven rows in fixed Monday→Sunday order, `none` (NaN) for a weekday
absent from the data. -/
def avg_by_day (ds : List PriceRecord) : List (String × Option ℚ) :=
  dayNames.map fun d =>
    (d, meanOpt ((ds.filter fun r => dayName r == d).map price_ct_kwh))

/-- The script-level dataframe: the loaded rows plus the `hour` and `weekday`
columns, which exist only after the analysis tab has run (`none` = column
absent). -/
structure DataFrame where
  rows : List PriceRecord
  hourCol : Option (List ℕ)
  weekdayCol : Option (List String)
deriving DecidableEq, Repr

/-- The value `load_data` returns: the converted rows, no derived
`hour`/`weekday` columns yet. -/
def load_data (rows : List PriceRecord) : DataFrame :=
  ⟨rows, none, none⟩

/-- The analysis tab's in-place mutation
`df["hour"] = df.start_timestamp.dt.hour; df["weekday"] = ....day_name()`. -/
def patternStep (df : DataFrame) : DataFrame :=
  { df with
    hourCol := some (df.rows.map hourOf)
    weekdayCol := some (df.rows.map dayName) }

/-- Everything the script derives in one run. -/
structure Outputs where
  series : List AggEntry
  stats : Summary
  hourly : List (ℕ × ℚ)
  weekday : List (String × Option ℚ)
deriving DecidableEq, Repr

/-- One top-to-bottom run of the script after loading: filter/aggregate,
statistics, then the analysis tab (which mutates `df` in place before
grouping). Returns the post-run dataframe and the derived outputs. -/
def runPipeline (df0 : DataFrame) (s e : Date) (mode : AggMode) :
    DataFrame × Outputs :=
  let series := filter_and_aggregate df0.rows s e mode
  let stats := summarize series
  let df1 := patternStep df0
  let hourly := avg_by_hour df1.rows
  let weekday := avg_by_day df1.rows
  (df1, ⟨series, stats, hourly, weekday⟩)

/-- Is a timestamp the first day of a calendar month at midnight? -/
def isFirstOfMonthMidnight (ts : ℕ) : Bool :=
  ts % msPerDay == 0 && (civilFromDays (ts / msPerDay)).day == 1

end Kosten

namespace Kosten

/-! ### Concrete fixtures

The two-record scenario of the spec (2024-01-01T00:00Z and T01:00Z, market
prices 400 and 200 €/MWh), and a two-record dataset with a one-day gap
(1970-01-01 and 1970-01-03) used to exhibit resample's NaN gap rows. -/

/-- Record `{start=2024-01-01T00:00Z, end=01:00Z, marketprice=400}`. -/
def rec1 : PriceRecord := ⟨1704067200000, 1704070800000, 400⟩

/-- Record `{start=2024-01-01T01:00Z, end=02:00Z, marketprice=200}`. -/
def rec2 : PriceRecord := ⟨1704070800000, 1704074400000, 200⟩

/-- A record in the first hour of 1970-01-01. -/
def recA : PriceRecord := ⟨0, 3600000, 400⟩

/-- A record in the first hour of 1970-01-03. -/
def recB : PriceRecord := ⟨172800000, 176400000, 200⟩

/-- A record in the first hour of 1970-03-01 (making February 1970 an empty
month between two occupied ones). -/
def recC : PriceRecord := ⟨5097600000, 5101200000, 300⟩

/-! ### Helper lemmas -/

/-- Membership in the date-range filter, unfolded. -/
lemma mem_filterRange {ds : List PriceRecord} {s e : Date} {r : PriceRecord} :
    r ∈ filterRange ds s e
      ↔ r ∈ ds ∧ dateLeb s (dateOf r) = true ∧ dateLeb (dateOf r) e = true := by
  simp [filterRange, List.mem_filter, Bool.and_eq_true]

/-- `resampleMean` on a non-empty frame is the map over the closed bin
range. -/
lemma resampleMean_cons (key : PriceRecord → ℕ) (bucketTs : ℕ → ℕ)
    (r : PriceRecord) (rs : List PriceRecord) :
    resampleMean key bucketTs (r :: rs)
      = (List.range' (keyLo key (r :: rs))
            (keyHi key (r :: rs) + 1 - keyLo key (r :: rs))).map fun k =>
          { bucket_start := bucketTs k
            val := meanOpt (((r :: rs).filter fun x => key x == k).map
              price_ct_kwh) } := rfl

/-- `meanOpt` is defined (not NaN) exactly on non-empty collections. -/
lemma meanOpt_isSome_iff (xs : List ℚ) : (meanOpt xs).isSome = true ↔ xs ≠ [] := by
  cases xs <;> simp [meanOpt]

/-- Dropping NaN rows does not change the defined values of the series. -/
lemma filterMap_val_filter_isSome (series : List AggEntry) :
    (series.filter fun en => en.val.isSome).filterMap AggEntry.val
      = series.filterMap AggEntry.val := by
  induction series with
  | nil => rfl
  | cons a l ih =>
    cases h : a.val with
    | none => simp [List.filter_cons, List.filterMap_cons, h, ih]
    | some v => simp [List.filter_cons, List.filterMap_cons, h, ih]

end Kosten

namespace Kosten

/-- A `resampleMean` output contains a row for EVERY bin whose key lies
between the lowest and highest occupied bin: the row carries the bin label
and the mean over the bin's records. -/
lemma mem_resampleMean_span (key : PriceRecord → ℕ) (bucketTs : ℕ → ℕ)
    (f : List PriceRecord) (k : ℕ) (hne : f ≠ [])
    (hlo : keyLo key f ≤ k) (hhi : k ≤ keyHi key f) :
    AggEntry.mk (bucketTs k)
        (meanOpt ((f.filter fun x => key x == k).map price_ct_kwh))
      ∈ resampleMean key bucketTs f := by
  match f, hne with
  | r :: rs, _ =>
    rw [resampleMean_cons]
    refine List.mem_map.mpr ⟨k, ?_, rfl⟩
    rw [List.mem_range'_1]
    omega
  | [], hne => exact absurd rfl hne

/-- A `resampleMean` output always contains a row for an empty bin whose key
lies between the lowest and highest occupied bin: the row carries the bin
label and a NaN (`none`) value. -/
lemma mem_resampleMean_empty_bin (key : PriceRecord → ℕ) (bucketTs : ℕ → ℕ)
    (f : List PriceRecord) (d : ℕ) (hne : f ≠ [])
    (hlo : keyLo key f ≤ d) (hhi : d ≤ keyHi key f)
    (hempty : ∀ r ∈ f, key r ≠ d) :
    AggEntry.mk (bucketTs d) none ∈ resampleMean key bucketTs f := by
  have h := mem_resampleMean_span key bucketTs f d hne hlo hhi
  have hfil : f.filter (fun x => key x == d) = [] := by
    apply List.filter_eq_nil_iff.mpr
    intro x hx
    simpa using hempty x hx
  rw [hfil] at h
  exact h

/-- Every bin label of a `resampleMean` output is `bucketTs` of some bin key
between the lowest and highest occupied bin. -/
lemma bucket_mem_resampleMean (key : PriceRecord → ℕ) (bucketTs : ℕ → ℕ)
    (f : List PriceRecord) (b : ℕ)
    (hb : b ∈ (resampleMean key bucketTs f).map AggEntry.bucket_start) :
    ∃ k, b = bucketTs k ∧ keyLo key f ≤ k ∧ k ≤ keyHi key f := by
  match f with
  | [] => simp [resampleMean] at hb
  | r :: rs =>
    rw [resampleMean_cons, List.map_map] at hb
    obtain ⟨k, hk, hbk⟩ := List.mem_map.mp hb
    rw [List.mem_range'_1] at hk
    exact ⟨k, hbk.symm, by omega, by omega⟩

/-! ### Claim theorems -/

/-- C1 counterexample. The claim "a day inside the filtered range with zero
contributing records produces NO entry" is false: for records on 1970-01-01
and 1970-01-03 filtered Daily over 1970-01-01..1970-01-03, the empty day
1970-01-02 (day index 1, which lies inside the range and has no records)
produces the NaN row `⟨86400000, none⟩` in the output. -/
theorem daily_gap_emits_nan_row_counterexample :
    (∀ r ∈ filterRange [recA, recB] ⟨1970,1,1⟩ ⟨1970,1,3⟩, dayKey r ≠ 1) ∧
    civilFromDays 1 = ⟨1970,1,2⟩ ∧
    dateLeb ⟨1970,1,1⟩ ⟨1970,1,2⟩ = true ∧
    dateLeb ⟨1970,1,2⟩ ⟨1970,1,3⟩ = true ∧
    AggEntry.mk 86400000 none
      ∈ filter_and_aggregate [recA, recB] ⟨1970,1,1⟩ ⟨1970,1,3⟩ .Taeglich := by
  decide

/-- C1 (amended): in Daily and Monthly mode the output is not sparse within
the occupied span. For each mode: (i) EVERY day/month whose bin key lies
between the first and last occupied bin of the filtered set produces an
entry, carrying the mean over that bin's records; (ii) when such a bin has
zero contributing records, its entry carries an undefined (NaN) value —
pandas `resample(...).mean()` fills interior gaps with NaN rows instead of
dropping them; (iii) conversely every emitted bucket label is the label of
a bin key inside the occupied span, so only buckets outside that span
produce no entry. -/
theorem resample_fills_empty_bins_in_span :
    (∀ (ds : List PriceRecord) (s e : Date) (d : ℕ),
      filterRange ds s e ≠ [] →
      keyLo dayKey (filterRange ds s e) ≤ d →
      d ≤ keyHi dayKey (filterRange ds s e) →
      AggEntry.mk (dayBucketTs d)
          (meanOpt (((filterRange ds s e).filter fun x => dayKey x == d).map
            price_ct_kwh))
        ∈ filter_and_aggregate ds s e .Taeglich) ∧
    (∀ (ds : List PriceRecord) (s e : Date) (d : ℕ),
      filterRange ds s e ≠ [] →
      keyLo dayKey (filterRange ds s e) ≤ d →
      d ≤ keyHi dayKey (filterRange ds s e) →
      (∀ r ∈ filterRange ds s e, dayKey r ≠ d) →
      AggEntry.mk (dayBucketTs d) none
        ∈ filter_and_aggregate ds s e .Taeglich) ∧
    (∀ (ds : List PriceRecord) (s e : Date) (m : ℕ),
      filterRange ds s e ≠ [] →
      keyLo monthKey (filterRange ds s e) ≤ m →
      m ≤ keyHi monthKey (filterRange ds s e) →
      AggEntry.mk (monthBucketTs m)
          (meanOpt (((filterRange ds s e).filter fun x => monthKey x == m).map
            price_ct_kwh))
        ∈ filter_and_aggregate ds s e .Monatlich) ∧
    (∀ (ds : List PriceRecord) (s e : Date) (m : ℕ),
      filterRange ds s e ≠ [] →
      keyLo monthKey (filterRange ds s e) ≤ m →
      m ≤ keyHi monthKey (filterRange ds s e) →
      (∀ r ∈ filterRange ds s e, monthKey r ≠ m) →
      AggEntry.mk (monthBucketTs m) none
        ∈ filter_and_aggregate ds s e .Monatlich) ∧
    (∀ (ds : List PriceRecord) (s e : Date) (b : ℕ),
      b ∈ (filter_and_aggregate ds s e .Taeglich).map AggEntry.bucket_start →
      ∃ k, b = dayBucketTs k
        ∧ keyLo dayKey (filterRange ds s e) ≤ k
        ∧ k ≤ keyHi dayKey (filterRange ds s e)) ∧
    (∀ (ds : List PriceRecord) (s e : Date) (b : ℕ),
      b ∈ (filter_and_aggregate ds s e .Monatlich).map AggEntry.bucket_start →
      ∃ k, b = monthBucketTs k
        ∧ keyLo monthKey (filterRange ds s e) ≤ k
        ∧ k ≤ keyHi monthKey (filterRange ds s e)) :=
  ⟨fun ds s e d hne hlo hhi =>
      mem_resampleMean_span dayKey dayBucketTs (filterRange ds s e) d hne hlo
        hhi,
    fun ds s e d hne hlo hhi hempty =>
      mem_resampleMean_empty_bin dayKey dayBucketTs (filterRange ds s e) d hne
        hlo hhi hempty,
    fun ds s e m hne hlo hhi =>
      mem_resampleMean_span monthKey monthBucketTs (filterRange ds s e) m hne
        hlo hhi,
    fun ds s e m hne hlo hhi hempty =>
      mem_resampleMean_empty_bin monthKey monthBucketTs (filterRange ds s e) m
        hne hlo hhi hempty,
    fun ds s e b hb =>
      bucket_mem_resampleMean dayKey dayBucketTs (filterRange ds s e) b hb,
    fun ds s e b hb =>
      bucket_mem_resampleMean monthKey monthBucketTs (filterRange ds s e) b hb⟩

/-- Witness for the amended C1 theorem: the empty day 1970-01-02 in the
daily gap dataset and the empty month February 1970 in the monthly gap
dataset both receive NaN rows, and concrete emitted labels of both outputs
lie in the respective occupied spans. -/
theorem resample_fills_empty_bins_in_span_witness :
    AggEntry.mk (dayBucketTs 1) none
        ∈ filter_and_aggregate [recA, recB] ⟨1970,1,1⟩ ⟨1970,1,3⟩ .Taeglich ∧
    AggEntry.mk (monthBucketTs 23641) none
        ∈ filter_and_aggregate [recA, recC] ⟨1970,1,1⟩ ⟨1970,3,31⟩ .Monatlich ∧
    (∃ k, 0 = dayBucketTs k
      ∧ keyLo dayKey (filterRange [recA, recB] ⟨1970,1,1⟩ ⟨1970,1,3⟩) ≤ k
      ∧ k ≤ keyHi dayKey (filterRange [recA, recB] ⟨1970,1,1⟩ ⟨1970,1,3⟩)) ∧
    (∃ k, 2592000000 = monthBucketTs k
      ∧ keyLo monthKey (filterRange [recA, recC] ⟨1970,1,1⟩ ⟨1970,3,31⟩) ≤ k
      ∧ k ≤ keyHi monthKey (filterRange [recA, recC] ⟨1970,1,1⟩ ⟨1970,3,31⟩)) :=
  ⟨resample_fills_empty_bins_in_span.2.1 [recA, recB] ⟨1970,1,1⟩ ⟨1970,1,3⟩ 1
      (by decide) (by decide) (by decide) (by decide),
    resample_fills_empty_bins_in_span.2.2.2.1 [recA, recC] ⟨1970,1,1⟩
      ⟨1970,3,31⟩ 23641 (by decide) (by decide) (by decide) (by decide),
    resample_fills_empty_bins_in_span.2.2.2.2.1 [recA, recB] ⟨1970,1,1⟩
      ⟨1970,1,3⟩ 0 (by decide),
    resample_fills_empty_bins_in_span.2.2.2.2.2 [recA, recC] ⟨1970,1,1⟩
      ⟨1970,3,31⟩ 2592000000 (by decide)⟩

/-- C2 counterexample. The claim "in Monthly mode every bucket key is the
first day of the month at midnight" is false: a single record in January
1970 yields the bucket label 2592000000 ms = 1970-01-31T00:00, the LAST day
of the month, not the first. -/
theorem monthly_bucket_not_month_start_counterexample :
    (filter_and_aggregate [recA] ⟨1970,1,1⟩ ⟨1970,1,1⟩ .Monatlich).map
        AggEntry.bucket_start = [2592000000] ∧
    isFirstOfMonthMidnight 2592000000 = false ∧
    civilFromDays (2592000000 / msPerDay) = ⟨1970,1,31⟩ := by
  decide

/-- C2 (amended): in Monthly mode every bucket label is month-END aligned:
it equals `monthBucketTs k` for some month key `k` in the occupied span,
i.e. midnight of the LAST calendar day of that month (pandas `resample("M")`
month-end frequency), and in particular is day-aligned
(`bucket_start % msPerDay = 0`). -/
theorem monthly_bucket_is_month_end_label
    (ds : List PriceRecord) (s e : Date) (b : ℕ)
    (hb : b ∈ (filter_and_aggregate ds s e .Monatlich).map AggEntry.bucket_start) :
    ∃ k, b = monthBucketTs k
      ∧ keyLo monthKey (filterRange ds s e) ≤ k
      ∧ k ≤ keyHi monthKey (filterRange ds s e)
      ∧ b % msPerDay = 0 := by
  obtain ⟨k, hbk, hk1, hk2⟩ :=
    bucket_mem_resampleMean monthKey monthBucketTs (filterRange ds s e) b hb
  refine ⟨k, hbk, hk1, hk2, ?_⟩
  rw [hbk]
  exact Nat.mul_mod_left _ _

/-- Witness for the amended C2 theorem at a concrete one-record dataset. -/
theorem monthly_bucket_is_month_end_label_witness :
    ∃ k, 2592000000 = monthBucketTs k
      ∧ keyLo monthKey (filterRange [recA] ⟨1970,1,1⟩ ⟨1970,1,1⟩) ≤ k
      ∧ k ≤ keyHi monthKey (filterRange [recA] ⟨1970,1,1⟩ ⟨1970,1,1⟩)
      ∧ 2592000000 % msPerDay = 0 :=
  monthly_bucket_is_month_end_label [recA] ⟨1970,1,1⟩ ⟨1970,1,1⟩ 2592000000
    (by decide)

/-- C3: the two-record scenario (2024-01-01T00:00Z at 400 €/MWh and
2024-01-01T01:00Z at 200 €/MWh) filtered Daily over
2024-01-01..2024-01-01 yields exactly one bucket, labelled
2024-01-01T00:00, with mean price (40 + 20) / 2 = 30 ct/kWh. -/
theorem daily_two_record_scenario :
    filter_and_aggregate [rec1, rec2] ⟨2024,1,1⟩ ⟨2024,1,1⟩ .Taeglich
      = [⟨1704067200000, some 30⟩] := by
  have h : filter_and_aggregate [rec1, rec2] ⟨2024,1,1⟩ ⟨2024,1,1⟩ .Taeglich
      = [⟨1704067200000, meanOpt [price_ct_kwh rec1, price_ct_kwh rec2]⟩] := rfl
  rw [h]
  norm_num [meanOpt, price_ct_kwh, rec1, rec2]

/-- C4: in Hourly mode the output is the filtered records passed through
unaggregated — one entry per retained record, labelled with the record's
own start timestamp and carrying its own price — and on the two-record
scenario this gives two entries with values 40 and 20 in that order. -/
theorem hourly_passthrough_and_scenario :
    (∀ (ds : List PriceRecord) (s e : Date),
      filter_and_aggregate ds s e .Stuendlich
        = (filterRange ds s e).map fun r =>
            ⟨r.start_timestamp, some (price_ct_kwh r)⟩) ∧
    filter_and_aggregate [rec1, rec2] ⟨2024,1,1⟩ ⟨2024,1,1⟩ .Stuendlich
      = [⟨1704067200000, some 40⟩, ⟨1704070800000, some 20⟩] := by
  refine ⟨fun ds s e => rfl, ?_⟩
  have h : filter_and_aggregate [rec1, rec2] ⟨2024,1,1⟩ ⟨2024,1,1⟩ .Stuendlich
      = [⟨1704067200000, some (price_ct_kwh rec1)⟩,
         ⟨1704070800000, some (price_ct_kwh rec2)⟩] := rfl
  rw [h]
  norm_num [price_ct_kwh, rec1, rec2]

/-- C5: for any dataset and any date pair with `start_date ≤ end_date`, the
filter retains exactly the records with
`start_date ≤ date(start_time) ≤ end_date`: a record is in the filtered set
iff it is in the dataset and its start date lies in the closed range. -/
theorem filterRange_mem_iff_in_range
    (ds : List PriceRecord) (s e : Date) (_hrange : dateLeb s e = true)
    (r : PriceRecord) :
    r ∈ filterRange ds s e
      ↔ r ∈ ds ∧ dateLeb s (dateOf r) = true ∧ dateLeb (dateOf r) e = true :=
  mem_filterRange

/-- Witness for the C5 theorem at the concrete scenario dataset. -/
theorem filterRange_mem_iff_in_range_witness :
    rec1 ∈ filterRange [rec1, rec2] ⟨2024,1,1⟩ ⟨2024,1,1⟩
      ↔ rec1 ∈ [rec1, rec2] ∧ dateLeb ⟨2024,1,1⟩ (dateOf rec1) = true
          ∧ dateLeb (dateOf rec1) ⟨2024,1,1⟩ = true :=
  filterRange_mem_iff_in_range [rec1, rec2] ⟨2024,1,1⟩ ⟨2024,1,1⟩ (by decide)
    rec1

/-- C6: the weekday pattern always enumerates exactly the seven weekdays
Monday through Sunday in that fixed order (its first components are the
fixed `dayNames` list), and a weekday with no records in the dataset gets a
row with an undefined (`none`) value rather than zero or an omitted row. -/
theorem weekday_pattern_fixed_order_and_missing_none (ds : List PriceRecord) :
    (avg_by_day ds).map Prod.fst = dayNames ∧
    ∀ d ∈ dayNames, (∀ r ∈ ds, dayName r ≠ d) → (d, none) ∈ avg_by_day ds := by
  constructor
  · simp [avg_by_day, List.map_map, Function.comp_def]
  · intro d hd hnone
    refine List.mem_map.mpr ⟨d, hd, ?_⟩
    have hfil : ds.filter (fun r => dayName r == d) = [] := by
      apply List.filter_eq_nil_iff.mpr
      intro x hx
      simpa using hnone x hx
    rw [hfil]
    rfl

/-- Witness for the C6 theorem: a dataset with a single Monday record has
the fixed-order header and an undefined Sunday slot. -/
theorem weekday_pattern_fixed_order_and_missing_none_witness :
    (avg_by_day [rec1]).map Prod.fst = dayNames ∧
    (("Sunday"), none) ∈ avg_by_day [rec1] :=
  ⟨(weekday_pattern_fixed_order_and_missing_none [rec1]).1,
    (weekday_pattern_fixed_order_and_missing_none [rec1]).2 ("Sunday")
      (by decide) (by decide)⟩

/-- C7 counterexample. The claim "no downstream operation modifies the
Dataset — after every operation it equals the value the Data Loader
returned" is false: running the pipeline adds the `hour` column to the
dataframe in place (the analysis tab's `df["hour"] = ...`), so the post-run
dataframe differs from the loaded one. -/
theorem pattern_step_mutates_dataframe_counterexample :
    (runPipeline (load_data [rec1]) ⟨2024,1,1⟩ ⟨2024,1,1⟩ .Stuendlich).1
        ≠ load_data [rec1] ∧
    (load_data [rec1]).hourCol = none ∧
    (runPipeline (load_data [rec1]) ⟨2024,1,1⟩ ⟨2024,1,1⟩ .Stuendlich).1.hourCol
        = some [0] :=
  ⟨fun h => absurd (congrArg DataFrame.hourCol h) (by decide), rfl, rfl⟩

/-- C7 (amended): the loaded records themselves are never modified — after a
full run the dataframe's rows equal the loaded rows (the filter works on a
`.copy()` and aggregation/statistics build new frames) — but the pattern
analysis adds the derived `hour` and `weekday` columns to the dataframe in
place, so the post-run dataframe is exactly the loaded value extended with
those two columns. -/
theorem rows_preserved_pattern_adds_columns
    (df0 : DataFrame) (s e : Date) (mode : AggMode) :
    ((runPipeline df0 s e mode).1).rows = df0.rows ∧
    (runPipeline df0 s e mode).1 = patternStep df0 := by
  constructor
  · simp only [runPipeline, patternStep]
  · simp only [runPipeline]

/-- C8: the hourly and weekday pattern outputs are identical across any two
runs over the same loaded dataframe that differ only in the selected date
range and aggregation mode — the pattern analysis reads the full dataset
and never the filter controls. -/
theorem patterns_independent_of_filter_controls
    (df0 : DataFrame) (s1 e1 s2 e2 : Date) (m1 m2 : AggMode) :
    (runPipeline df0 s1 e1 m1).2.hourly = (runPipeline df0 s2 e2 m2).2.hourly ∧
    (runPipeline df0 s1 e1 m1).2.weekday
        = (runPipeline df0 s2 e2 m2).2.weekday := by
  constructor
  · simp only [runPipeline]
  · simp only [runPipeline]

/-- C9: summarizing an empty aggregated series returns undefined (`none`,
modelling NaN) for all of average, minimum and maximum — not zero, and the
total function raises nothing. -/
theorem summarize_empty_all_undefined :
    summarize [] = ⟨none, none, none⟩ :=
  rfl

/-- C10: the statistics ignore undefined (NaN) entries: summarizing any
series gives the same result as summarizing only its defined entries — in
particular for any filtered/aggregated output — and an aggregated value is
defined exactly when its bucket has at least one contributing record
(`meanOpt` is `none` precisely on the empty record list). -/
theorem summarize_skips_undefined_entries :
    (∀ series : List AggEntry,
      summarize series = summarize (series.filter fun en => en.val.isSome)) ∧
    (∀ (ds : List PriceRecord) (s e : Date) (mode : AggMode),
      summarize (filter_and_aggregate ds s e mode)
        = summarize ((filter_and_aggregate ds s e mode).filter
            fun en => en.val.isSome)) ∧
    (∀ xs : List ℚ, (meanOpt xs).isSome = true ↔ xs ≠ []) := by
  refine ⟨fun series => ?_, fun ds s e mode => ?_, meanOpt_isSome_iff⟩
  · simp [summarize, filterMap_val_filter_isSome]
  · simp [summarize, filterMap_val_filter_isSome]

end Kosten
